import Mathlib

/-!
Shallow embedding of the schedule card logic in
`custom_components/enphase_envoy_cloud_control/www/enphase-schedule-card.js`.

Modelling conventions:
* JS numbers that can be `NaN` are modelled as `Option ℚ` (`none` = `NaN`);
  every number the card manipulates (limits, day codes) is exact, so `ℚ`
  comparisons coincide with JS comparisons on those values.
* JS arrays of day codes are `List Int`; `Array.prototype.indexOf`/`splice`
  of the first occurrence is `List.erase`, `push` + ascending `sort` is
  append + `mergeSort` with `≤`.
* `this._hass` being set or unset is a `Bool` parameter `hass`.
* `callService` is modelled by emitting a `ServiceCall` value; the source
  neither awaits the call nor attaches result handlers, so no state
  transition of the card depends on the gateway's outcome.
-/

/-- A draft (the `edit` or `add` entry of `this._state`), and also the shape
`_validate` receives.  Field names follow the source. -/
structure Draft where
  schedule_type : String
  start_time : String
  end_time : String
  limit : Option ℚ
  days : List Int
  deriving Repr, DecidableEq

/-- `_emptySchedule(defaultType)` from the source. -/
def _emptySchedule (defaultType : String) : Draft :=
  { schedule_type := defaultType
    start_time := "00:00"
    end_time := "00:00"
    limit := some 0
    days := [] }

/-- `_validate(schedule)` from the source: returns the error message, `""` on
success.  The checks run in source order: time range, then days, then limit.
`Number(schedule.limit)` with `Number.isNaN(limit) || limit < 0 || limit > 100`
is the `Option ℚ` match (`none` = `NaN`).  `!Array.isArray(schedule.days)`
cannot fire in the model because `days` is always a list. -/
def _validate (s : Draft) : String :=
  if s.start_time = s.end_time then
    "Start time and end time must differ."
  else if s.days.isEmpty then
    "Select at least one day."
  else
    match s.limit with
    | none => "Limit must be between 0 and 100."
    | some l =>
      if l < 0 ∨ l > 100 then "Limit must be between 0 and 100." else ""

/-- `_toggleDay(target, day)` from the source, as a pure function on the days
array: if `day` occurs (`indexOf(day) >= 0`) remove its first occurrence
(`splice(idx, 1)`), otherwise `push(day)` and sort ascending
(`sort((a, b) => a - b)`).  There is no range check on `day`. -/
def _toggleDay (days : List Int) (day : Int) : List Int :=
  if days.contains day then days.erase day
  else (days ++ [day]).mergeSort (fun a b => decide (a ≤ b))

/-- `this._state` of the card: selection pointer, the two drafts and the
current error message.  `selectedId = none` models `selectedId: null`. -/
structure CardState where
  selectedId : Option String
  edit : Draft
  add : Draft
  error : String
  deriving Repr, DecidableEq

/-- The initial `this._state` built in the constructor. -/
def initialState : CardState :=
  { selectedId := none
    edit := _emptySchedule "cfg"
    add := _emptySchedule "cfg"
    error := "" }

/-- The data objects handed to `this._hass.callService` by the three
handlers, with the default service names of `setConfig`
(`add_schedule`, `update_schedule`, `delete_schedule`). -/
inductive ServiceCall where
  | addSchedule (schedule_type start_time end_time : String)
      (limit : Option ℚ) (days : List Int)
  | updateSchedule (schedule_id : String)
      (schedule_type start_time end_time : String)
      (limit : Option ℚ) (days : List Int) (confirm : Bool)
  | deleteSchedule (schedule_id : String) (confirm : Bool)
  deriving Repr, DecidableEq

/-- `_serviceCall(service, data)`: forwards the call to `hass.callService`
when `this._hass` is set, silently does nothing otherwise.  The emitted list
records the calls that reach the gateway. -/
def _serviceCall (hass : Bool) (c : ServiceCall) : List ServiceCall :=
  if hass then [c] else []

/-- JS truthiness of `this._state.selectedId` (a string or `null`):
`!selectedId` holds for `null` and for the empty string. -/
def idFalsy : Option String → Bool
  | none => true
  | some s => s = ""

/-- `_handleSave()`: validate the edit draft, then check the selection, then
clear the error and issue the update call.  Returns the new state and the
gateway calls issued. -/
def _handleSave (hass : Bool) (st : CardState) : CardState × List ServiceCall :=
  let error := _validate st.edit
  if error ≠ "" then
    ({ st with error := error }, [])
  else if idFalsy st.selectedId then
    ({ st with error := "Select a schedule to update." }, [])
  else
    ({ st with error := "" },
      _serviceCall hass
        (.updateSchedule (st.selectedId.getD "") st.edit.schedule_type
          st.edit.start_time st.edit.end_time st.edit.limit st.edit.days true))

/-- `_handleDelete()`: check the selection, then clear the error and issue the
delete call. -/
def _handleDelete (hass : Bool) (st : CardState) : CardState × List ServiceCall :=
  if idFalsy st.selectedId then
    ({ st with error := "Select a schedule to delete." }, [])
  else
    ({ st with error := "" },
      _serviceCall hass (.deleteSchedule (st.selectedId.getD "") true))

/-- `_handleAdd()`: validate the add draft, then clear the error and issue the
add call.  No selection precondition. -/
def _handleAdd (hass : Bool) (st : CardState) : CardState × List ServiceCall :=
  let error := _validate st.add
  if error ≠ "" then
    ({ st with error := error }, [])
  else
    ({ st with error := "" },
      _serviceCall hass
        (.addSchedule st.add.schedule_type st.add.start_time
          st.add.end_time st.add.limit st.add.days))

/-- Outcome reported by the remote service for a dispatched call. -/
inductive GatewayResult where
  | success
  | failure (reason : String)
  deriving Repr, DecidableEq

/-- What the card's state becomes once the gateway settles a dispatched
call: `this._hass.callService(...)` at line 80 is neither awaited nor given
`then`/`catch` handlers, so the card never observes the result and no field
of `this._state` changes, whatever the gateway reports. -/
def afterGatewayResult (st : CardState) (_r : GatewayResult) : CardState :=
  st

/-!
Reference model for the day arrays.  In JS the only mutable structure a
schedule record and a draft can share is the `days` array; strings and
numbers are immutable values.  A `Heap` stores every live days array, and a
`Nat` index plays the role of an array reference, so that
`days: [...selected.days]` (a fresh array with copied contents, line 96) and
in-place mutation by `_toggleDay` (`splice`/`push` on `target.days`) can be
stated faithfully.
-/

/-- The store of live days arrays; a reference is an index into `arrays`. -/
structure Heap where
  arrays : List (List Int)
  deriving Repr, DecidableEq

/-- Dereference a days array (out-of-range reads give `[]`; all references
used below are live). -/
def Heap.read (h : Heap) (r : Nat) : List Int :=
  h.arrays.getD r []

/-- Allocate a fresh array with the given contents, returning the new heap
and the fresh reference. -/
def Heap.alloc (h : Heap) (v : List Int) : Heap × Nat :=
  (⟨h.arrays ++ [v]⟩, h.arrays.length)

/-- Overwrite the array behind a reference. -/
def Heap.write (h : Heap) (r : Nat) (v : List Int) : Heap :=
  ⟨h.arrays.set r v⟩

/-- The days-array part of `_onSelectSchedule` (lines 91–97): the edit draft
receives `days: [...selected.days]`, a fresh array holding a copy of the
selected schedule's days. -/
def selectCopyDays (h : Heap) (schedDaysRef : Nat) : Heap × Nat :=
  h.alloc (h.read schedDaysRef)

/-- `_toggleDay(target, day)` as the in-place mutation it is in the source:
the array behind `target.days` is updated, other arrays are untouched. -/
def toggleDayAt (h : Heap) (r : Nat) (day : Int) : Heap :=
  h.write r (_toggleDay (h.read r) day)

/-! Concrete states used to instantiate the theorems. -/

/-- A state whose edit draft is valid and whose selection is set. -/
def validEditState : CardState :=
  { selectedId := some "sched-1"
    edit := ⟨"cfg", "01:00", "05:00", some 80, [1, 2]⟩
    add := _emptySchedule "cfg"
    error := "" }

/-- The add draft of the spec's dispatch scenario. -/
def dtgDraft : Draft :=
  ⟨"dtg", "22:00", "06:00", some 40, [6, 7]⟩

/-- A state whose edit and add drafts are both valid and whose selection is
set. -/
def fullValidState : CardState :=
  { validEditState with add := dtgDraft }

/-!  Theorems, one per claim. -/

/-- C1: for every draft whose start time equals its end time, `_validate`
returns the time-range failure message regardless of the draft's other
fields — the time-range check is the first check, so it takes precedence
over every other validation failure. -/
theorem validate_start_eq_end (d : Draft) (h : d.start_time = d.end_time) :
    _validate d = "Start time and end time must differ." := by
  simp [_validate, h]

/-- Witness for C1 at a draft that also has an empty day set and a `NaN`
limit: the time-range message wins. -/
theorem validate_start_eq_end_witness :
    (Draft.start_time ⟨"dtg", "08:00", "08:00", none, []⟩ =
        Draft.end_time ⟨"dtg", "08:00", "08:00", none, []⟩) ∧
      _validate ⟨"dtg", "08:00", "08:00", none, []⟩ =
        "Start time and end time must differ." :=
  ⟨rfl, validate_start_eq_end ⟨"dtg", "08:00", "08:00", none, []⟩ rfl⟩

/-- With a distinct time range and a non-empty day set, `_validate` reduces
to the limit check alone. -/
theorem validate_of_time_days (d : Draft)
    (h1 : d.start_time ≠ d.end_time) (h2 : d.days ≠ []) :
    _validate d =
      match d.limit with
      | none => "Limit must be between 0 and 100."
      | some l =>
        if l < 0 ∨ l > 100 then "Limit must be between 0 and 100." else "" := by
  rcases d with ⟨t, s, e, lim, ds⟩
  simp only at h1 h2
  simp [_validate, h1, h2]

/-- C4 (amended): with a distinct time range and a non-empty day set,
`_validate` returns the limit failure message exactly when the limit is
`NaN` or lies outside `[0, 100]`, and returns success otherwise; no
integrality condition is checked. -/
theorem validate_limit_range (d : Draft)
    (h1 : d.start_time ≠ d.end_time) (h2 : d.days ≠ []) :
    (_validate d = "Limit must be between 0 and 100." ↔
      d.limit = none ∨ ∃ l, d.limit = some l ∧ (l < 0 ∨ l > 100)) ∧
    (_validate d = "" ↔ ∃ l, d.limit = some l ∧ 0 ≤ l ∧ l ≤ 100) := by
  rw [validate_of_time_days d h1 h2]
  rcases hd : d.limit with _ | l
  · simp
  · simp only [hd, Option.some.injEq, reduceCtorEq, false_or, exists_eq_left']
    by_cases hl : l < 0 ∨ l > 100
    · rw [if_pos hl]
      constructor
      · constructor
        · intro _; exact hl
        · intro _; rfl
      · constructor
        · intro h; exact absurd h (by decide)
        · rintro ⟨h0, h100⟩
          rcases hl with hl | hl
          · exact absurd h0 (not_le.mpr hl)
          · exact absurd h100 (not_le.mpr hl)
    · rw [if_neg hl]
      push_neg at hl
      constructor
      · constructor
        · intro h; exact absurd h (by decide)
        · rintro (h | h)
          · exact absurd h (not_lt.mpr hl.1)
          · exact absurd h (not_lt.mpr hl.2)
      · constructor
        · intro _; exact ⟨hl.1, hl.2⟩
        · intro _; rfl

/-- Witness for C4 at a draft with limit 101: the limit message is returned
and success is refuted. -/
theorem validate_limit_range_witness :
    (Draft.start_time ⟨"cfg", "00:00", "01:00", some 101, [1]⟩ ≠
        Draft.end_time ⟨"cfg", "00:00", "01:00", some 101, [1]⟩) ∧
      (_validate ⟨"cfg", "00:00", "01:00", some 101, [1]⟩ =
          "Limit must be between 0 and 100." ↔
        (some (101 : ℚ) = none ∨
          ∃ l, some (101 : ℚ) = some l ∧ (l < 0 ∨ l > 100))) :=
  ⟨by decide,
    (validate_limit_range ⟨"cfg", "00:00", "01:00", some 101, [1]⟩
      (by decide) (by decide)).1⟩

/-- Counterexample for C4: the non-integer limit 50.5 lies in `[0, 100]`, so
`_validate` accepts the draft, although 50.5 is not an integer — the claim
that non-integer limits are rejected is false. -/
theorem validate_noninteger_limit_counterexample :
    _validate ⟨"cfg", "00:00", "01:00", some (101 / 2), [1]⟩ = "" ∧
      ∀ n : ℤ, (n : ℚ) ≠ 101 / 2 := by
  constructor
  · rw [validate_of_time_days _ (by decide) (by decide)]
    show (if (101 / 2 : ℚ) < 0 ∨ (101 / 2 : ℚ) > 100 then
        "Limit must be between 0 and 100." else "") = ""
    rw [if_neg]
    norm_num
  · intro n hn
    have h2 : ((n * 2 : ℤ) : ℚ) = ((101 : ℤ) : ℚ) := by
      push_cast
      rw [hn]
      ring
    have h3 : n * 2 = 101 := by exact_mod_cast h2
    omega

/-- When the day occurs in the array, `_toggleDay` removes its first
occurrence. -/
theorem toggleDay_of_mem {days : List Int} {day : Int} (h : day ∈ days) :
    _toggleDay days day = days.erase day := by
  rw [_toggleDay, if_pos (by simpa using h)]

/-- When the day does not occur, `_toggleDay` pushes it and sorts. -/
theorem toggleDay_of_not_mem {days : List Int} {day : Int} (h : day ∉ days) :
    _toggleDay days day =
      (days ++ [day]).mergeSort (fun a b => decide (a ≤ b)) := by
  rw [_toggleDay, if_neg (by simpa using h)]

/-- C5 (amended): for every day value — there is no range check, so values
outside `1..7` included — `_toggleDay` computes the symmetric difference of
the day with a duplicate-free days set, and on an ascending days list the
result is again ascending. -/
theorem toggleDay_symmDiff (days : List Int) (day : Int)
    (hnd : days.Nodup) (hs : days.Sorted (· ≤ ·)) :
    (∀ x, x ∈ _toggleDay days day ↔
      (x ∈ days ∧ x ≠ day) ∨ (x = day ∧ day ∉ days)) ∧
    (_toggleDay days day).Sorted (· ≤ ·) := by
  by_cases hmem : day ∈ days
  · rw [toggleDay_of_mem hmem]
    constructor
    · intro x
      rw [hnd.mem_erase_iff]
      constructor
      · rintro ⟨hne, hx⟩; exact Or.inl ⟨hx, hne⟩
      · rintro (⟨hx, hne⟩ | ⟨rfl, habs⟩)
        · exact ⟨hne, hx⟩
        · exact absurd hmem habs
    · exact hs.sublist (List.erase_sublist _ _)
  · rw [toggleDay_of_not_mem hmem]
    constructor
    · intro x
      rw [List.mem_mergeSort, List.mem_append, List.mem_singleton]
      constructor
      · rintro (hx | rfl)
        · exact Or.inl ⟨hx, fun h => hmem (h ▸ hx)⟩
        · exact Or.inr ⟨rfl, hmem⟩
      · rintro (⟨hx, _⟩ | ⟨rfl, _⟩)
        · exact Or.inl hx
        · exact Or.inr rfl
    · exact List.sorted_mergeSort' _

/-- Witness for C5 at the out-of-range day 9 on the set `[1, 3]`. -/
theorem toggleDay_symmDiff_witness :
    ([1, 3] : List Int).Nodup ∧
      (((9 : Int) ∈ _toggleDay [1, 3] 9 ↔
          ((9 : Int) ∈ ([1, 3] : List Int) ∧ (9 : Int) ≠ 9) ∨
            ((9 : Int) = 9 ∧ (9 : Int) ∉ ([1, 3] : List Int))) ∧
        (_toggleDay [1, 3] 9).Sorted (· ≤ ·)) :=
  ⟨by decide,
    (toggleDay_symmDiff [1, 3] 9 (by decide) (by decide)).1 9,
    (toggleDay_symmDiff [1, 3] 9 (by decide) (by decide)).2⟩

/-- Counterexample for C5: the day value 9 lies outside `1..7`, yet
`_toggleDay` is not a no-op on it — the source has no range check, so 9 is
inserted into the set. -/
theorem toggleDay_out_of_range_counterexample :
    _toggleDay [] 9 = [9] ∧ ([9] : List Int) ≠ [] ∧
      ¬((1 : Int) ≤ 9 ∧ (9 : Int) ≤ 7) := by
  refine ⟨?_, by decide, by decide⟩
  simp [_toggleDay]

/-- C6: on a duplicate-free days set, toggling the same day twice returns
the original set (as a permutation, i.e. the same set of days). -/
theorem toggleDay_twice_perm (days : List Int) (day : Int)
    (hnd : days.Nodup) :
    (_toggleDay (_toggleDay days day) day).Perm days := by
  by_cases hmem : day ∈ days
  · rw [toggleDay_of_mem hmem,
      toggleDay_of_not_mem (by simp [hnd.mem_erase_iff])]
    exact ((List.mergeSort_perm _ _).trans
      (List.perm_append_singleton _ _)).trans (List.perm_cons_erase hmem).symm
  · rw [toggleDay_of_not_mem hmem,
      toggleDay_of_mem (by simp [List.mem_mergeSort])]
    have h1 := (List.mergeSort_perm (days ++ [day])
      (fun a b => decide (a ≤ b))).erase day
    rw [List.erase_append_right _ hmem] at h1
    simpa using h1

/-- Witness for C6: toggling day 2 twice on `[1, 3]`. -/
theorem toggleDay_twice_perm_witness :
    ([1, 3] : List Int).Nodup ∧
      (_toggleDay (_toggleDay [1, 3] 2) 2).Perm [1, 3] :=
  ⟨by decide, toggleDay_twice_perm [1, 3] 2 (by decide)⟩

/-- C7 (amended): with no selection, `_handleDelete` always reports the
no-selection message and issues no gateway call; `_handleSave` issues no
gateway call either, and reports the no-selection message when the edit
draft passes validation (a validation failure is reported first, because
`_handleSave` validates before checking the selection). -/
theorem null_selection_no_dispatch (hass : Bool) (st : CardState)
    (h : st.selectedId = none) :
    _handleDelete hass st =
      ({ st with error := "Select a schedule to delete." }, []) ∧
    (_handleSave hass st).2 = [] ∧
    (_validate st.edit = "" →
      _handleSave hass st =
        ({ st with error := "Select a schedule to update." }, [])) := by
  refine ⟨by simp [_handleDelete, idFalsy, h], ?_, ?_⟩
  · by_cases hv : _validate st.edit = ""
    · simp [_handleSave, hv, idFalsy, h]
    · simp [_handleSave, hv]
  · intro hv
    simp [_handleSave, hv, idFalsy, h]

/-- Witness for C7 at the initial state (empty drafts, no selection). -/
theorem null_selection_no_dispatch_witness :
    initialState.selectedId = none ∧
      _handleDelete true initialState =
        ({ initialState with error := "Select a schedule to delete." }, []) ∧
      (_handleSave true initialState).2 = [] :=
  ⟨rfl, (null_selection_no_dispatch true initialState rfl).1,
    (null_selection_no_dispatch true initialState rfl).2.1⟩

/-- Counterexample for C7: save triggered with a null selection but an
invalid edit draft (start equals end) terminates with the validation
message, not the no-selection message. -/
theorem null_selection_counterexample :
    CardState.selectedId
        { initialState with edit := ⟨"cfg", "08:00", "08:00", some 50, [1, 2, 3]⟩ } =
      none ∧
    (_handleSave true
        { initialState with edit := ⟨"cfg", "08:00", "08:00", some 50, [1, 2, 3]⟩ }).1.error =
      "Start time and end time must differ." ∧
    "Start time and end time must differ." ≠ "Select a schedule to update." := by
  refine ⟨rfl, ?_, by decide⟩
  rfl

/-- C2 (amended): when a dispatched save or add fails at the gateway, the
card's state does not change at all — `callService` is never awaited and no
handler is attached, so the failure state equals the success state: the
error stays cleared (no `RemoteRejected` message exists) and the drafts and
selection are untouched. -/
theorem gateway_failure_ignored (st : CardState) (reason : String)
    (hv : _validate st.edit = "") (ha : _validate st.add = "")
    (hs : idFalsy st.selectedId = false) :
    (afterGatewayResult (_handleSave true st).1 (.failure reason) =
        { st with error := "" } ∧
      afterGatewayResult (_handleSave true st).1 (.failure reason) =
        afterGatewayResult (_handleSave true st).1 .success) ∧
    (afterGatewayResult (_handleAdd true st).1 (.failure reason) =
        { st with error := "" } ∧
      afterGatewayResult (_handleAdd true st).1 (.failure reason) =
        afterGatewayResult (_handleAdd true st).1 .success) := by
  refine ⟨⟨?_, rfl⟩, ⟨?_, rfl⟩⟩
  · simp [afterGatewayResult, _handleSave, hv, hs]
  · simp [afterGatewayResult, _handleAdd, ha]

/-- Witness for C2 at a concrete valid state. -/
theorem gateway_failure_ignored_witness :
    _validate fullValidState.edit = "" ∧
      afterGatewayResult (_handleSave true fullValidState).1
          (.failure "token expired") =
        { fullValidState with error := "" } :=
  ⟨rfl, (gateway_failure_ignored fullValidState "token expired"
    rfl rfl rfl).1.1⟩

/-- Counterexample for C2: after a save whose gateway call fails with
"token expired", the error is the empty string — not a message carrying the
reason — and the state is identical to the one after a successful call. -/
theorem gateway_failure_counterexample :
    afterGatewayResult (_handleSave true validEditState).1
        (.failure "token expired") =
      afterGatewayResult (_handleSave true validEditState).1 .success ∧
    (afterGatewayResult (_handleSave true validEditState).1
        (.failure "token expired")).error = "" ∧
    ("" : String) ≠ "token expired" := by
  refine ⟨rfl, ?_, by decide⟩
  rfl

/-- C3 (amended): the card has no in-flight guard.  Triggering save again
while the previous save's gateway call is still outstanding behaves exactly
like the first trigger: a second, identical gateway call is dispatched
immediately and no error (in particular no operation-in-progress error) is
set — operations are dispatched at once, never queued and never rejected. -/
theorem retrigger_dispatches_again (st : CardState)
    (hv : _validate st.edit = "") (hs : idFalsy st.selectedId = false) :
    (_handleSave true st).2 =
      [.updateSchedule (st.selectedId.getD "") st.edit.schedule_type
        st.edit.start_time st.edit.end_time st.edit.limit st.edit.days true] ∧
    _handleSave true (_handleSave true st).1 = _handleSave true st := by
  constructor
  · simp [_handleSave, hv, hs, _serviceCall]
  · simp [_handleSave, hv, hs]

/-- Witness for C3 at a concrete valid state. -/
theorem retrigger_dispatches_again_witness :
    _validate validEditState.edit = "" ∧
      _handleSave true (_handleSave true validEditState).1 =
        _handleSave true validEditState :=
  ⟨rfl, (retrigger_dispatches_again validEditState rfl rfl).2⟩

/-- Counterexample for C3: with a valid draft and selection, the first save
dispatches a gateway call, and a save retriggered while that call is still
outstanding dispatches a second call and leaves the error empty — there is
no operation-in-progress rejection. -/
theorem retrigger_counterexample :
    ((_handleSave true validEditState).2).length = 1 ∧
    ((_handleSave true (_handleSave true validEditState).1).2).length = 1 ∧
    (_handleSave true (_handleSave true validEditState).1).1.error = "" := by
  refine ⟨rfl, rfl, ?_⟩
  rfl

/-- C8: with the host connection set, adding with a draft that passes
validation issues exactly one gateway add call carrying exactly the draft's
type, start, end, limit and days, and clears the error; with a draft that
fails validation no gateway call is made (whether or not the host is set)
and the error is set to the validation message. -/
theorem handleAdd_contract (st : CardState) :
    (_validate st.add = "" →
      _handleAdd true st =
        ({ st with error := "" },
          [.addSchedule st.add.schedule_type st.add.start_time
            st.add.end_time st.add.limit st.add.days])) ∧
    (∀ hass, _validate st.add ≠ "" →
      _handleAdd hass st = ({ st with error := _validate st.add }, [])) := by
  constructor
  · intro h
    simp [_handleAdd, h, _serviceCall]
  · intro hass h
    simp [_handleAdd, h]

/-- Witness for C8: the spec's dispatch scenario — the dtg draft
`{type: dtg, start: 22:00, end: 06:00, limit: 40, days: [6, 7]}` produces
exactly `add("dtg", "22:00", "06:00", 40, [6, 7])` with the error
cleared. -/
theorem handleAdd_contract_witness :
    _validate fullValidState.add = "" ∧
      _handleAdd true fullValidState =
        ({ fullValidState with error := "" },
          [.addSchedule "dtg" "22:00" "06:00" (some 40) [6, 7]]) :=
  ⟨rfl, (handleAdd_contract fullValidState).1 rfl⟩

/-- C10: with the host connection unset and every local precondition
satisfied, save, delete and add clear the error and emit no gateway call at
all, and the resulting state is identical to the state after a dispatched
operation — the silently dropped operation is indistinguishable in the
exposed snapshot. -/
theorem hass_unset_silent_drop (st : CardState)
    (hv : _validate st.edit = "") (ha : _validate st.add = "")
    (hs : idFalsy st.selectedId = false) :
    (_handleSave false st = ({ st with error := "" }, []) ∧
      (_handleSave false st).1 = (_handleSave true st).1) ∧
    (_handleDelete false st = ({ st with error := "" }, []) ∧
      (_handleDelete false st).1 = (_handleDelete true st).1) ∧
    (_handleAdd false st = ({ st with error := "" }, []) ∧
      (_handleAdd false st).1 = (_handleAdd true st).1) := by
  refine ⟨⟨?_, ?_⟩, ⟨?_, ?_⟩, ⟨?_, ?_⟩⟩ <;>
    simp [_handleSave, _handleDelete, _handleAdd, hv, ha, hs, _serviceCall]

/-- Witness for C10 at a concrete valid state. -/
theorem hass_unset_silent_drop_witness :
    _validate fullValidState.edit = "" ∧
      _handleAdd false fullValidState =
        ({ fullValidState with error := "" }, []) ∧
      (_handleAdd false fullValidState).1 = (_handleAdd true fullValidState).1 :=
  ⟨rfl, (hass_unset_silent_drop fullValidState rfl rfl rfl).2.2.1,
    (hass_unset_silent_drop fullValidState rfl rfl rfl).2.2.2⟩

/-- Writing behind one reference leaves the array behind a different
reference unchanged. -/
theorem Heap.read_write_ne (h : Heap) (r r' : Nat) (v : List Int)
    (hne : r' ≠ r) : (h.write r' v).read r = h.read r := by
  unfold Heap.read Heap.write
  simp only [List.getD, List.get?_eq_getElem?]
  rw [List.getElem?_set_ne hne]

/-- Allocation leaves every live array readable unchanged. -/
theorem Heap.read_alloc (h : Heap) (r : Nat) (v : List Int)
    (hr : r < h.arrays.length) : (h.alloc v).1.read r = h.read r := by
  unfold Heap.read Heap.alloc
  simp only [List.getD, List.get?_eq_getElem?]
  rw [List.getElem?_append_left hr]

/-- C9: after `_onSelectSchedule` copies the selected schedule's days into
the edit draft (`days: [...selected.days]`, a fresh array), any sequence of
subsequent day toggles on the edit draft leaves the authoritative
schedule's days array unchanged — the copy shares no state with the
authoritative record. -/
theorem select_then_toggles_frame (h : Heap) (schedDaysRef : Nat)
    (ds : List Int) (hr : schedDaysRef < h.arrays.length) :
    Heap.read
      (ds.foldl
        (fun hh d => toggleDayAt hh (selectCopyDays h schedDaysRef).2 d)
        (selectCopyDays h schedDaysRef).1)
      schedDaysRef = h.read schedDaysRef := by
  have hne : (selectCopyDays h schedDaysRef).2 ≠ schedDaysRef := by
    simp only [selectCopyDays, Heap.alloc]
    exact Nat.ne_of_gt hr
  have key : ∀ (l : List Int) (hh : Heap),
      hh.read schedDaysRef = h.read schedDaysRef →
      Heap.read
        (l.foldl
          (fun hh d => toggleDayAt hh (selectCopyDays h schedDaysRef).2 d) hh)
        schedDaysRef = h.read schedDaysRef := by
    intro l
    induction l with
    | nil => intro hh hh'; simpa using hh'
    | cons d l ih =>
      intro hh hh'
      simp only [List.foldl_cons]
      exact ih _ (by rw [toggleDayAt, Heap.read_write_ne _ _ _ _ hne]; exact hh')
  exact key ds _ (Heap.read_alloc h schedDaysRef _ hr)

/-- Witness for C9: one authoritative days array `[1, 2]`, selected and
then edited by toggling days 3 and 5 on the edit draft; the authoritative
array still reads `[1, 2]`. -/
theorem select_then_toggles_frame_witness :
    0 < (Heap.arrays ⟨[[1, 2]]⟩).length ∧
      Heap.read
        (List.foldl
          (fun hh d => toggleDayAt hh (selectCopyDays ⟨[[1, 2]]⟩ 0).2 d)
          (selectCopyDays ⟨[[1, 2]]⟩ 0).1 [3, 5])
        0 = Heap.read ⟨[[1, 2]]⟩ 0 :=
  ⟨by decide, select_then_toggles_frame ⟨[[1, 2]]⟩ 0 [3, 5] (by decide)⟩
